import Mathlib

/-!
Verification development for the `ha-mesh-panel` repository: a bidirectional
bridge between a home-automation backend and touch panels over a pub/sub bus.
The repository contains two independently evolved variants of the bridge:

* `custom_components/mesh_panel`  (`MeshPanelManager`, `options_flow.py`), and
* `custom_components/smart_panel` (`SmartPanelController`).

We shallow-embed the message codec, the action dispatchers, the state relays,
the layout coercion, and the options-flow helpers of both variants.  JSON/YAML
values are modelled by `JVal`; Python dictionaries are ordered association
lists (keys unique, as produced by a parsed document); Python exceptions are
modelled with `Except`/`Option` error components.  Numbers are modelled as
exact rationals (the source only ever scales by 100, so no floating-point
rounding is involved in any statement below).  Raw text parsing by
`json.loads`/`yaml.safe_load` is abstracted to its outcome (the parsed value,
or a parse failure); everything downstream of the parse is translated
faithfully from the source.
-/

/-- JSON/YAML-like values: the dynamic data the bridge passes around.
`jnum` carries an exact rational (Python ints and floats). -/
inductive JVal where
  | jnull
  | jbool (b : Bool)
  | jnum (q : Rat)
  | jstr (s : String)
  | jarr (items : List JVal)
  | jobj (fields : List (String × JVal))

/-- A Python dict: ordered association list with unique keys. -/
abbrev Fields := List (String × JVal)

/-- `k in d` on a Python dict. -/
def hasKey (fs : Fields) (k : String) : Bool :=
  fs.any (fun p => p.1 == k)

/-- `d.get(k)` on a Python dict (first binding; keys are unique). -/
def lookupKey (fs : Fields) (k : String) : Option JVal :=
  match fs with
  | [] => none
  | (k', v) :: rest => if k' == k then some v else lookupKey rest k

/-- `d[k] = v` on a Python dict: replaces in place, or appends if absent
(insertion-order semantics of Python dicts). -/
def setKey (fs : Fields) (k : String) (v : JVal) : Fields :=
  match fs with
  | [] => [(k, v)]
  | (k', v') :: rest => if k' == k then (k', v) :: rest else (k', v') :: setKey rest k v

/-- Python truthiness: `None`, `False`, `0`, `""`, `[]` and `\x7b\x7d` are falsy. -/
def isFalsy : JVal → Bool
  | .jnull => true
  | .jbool b => !b
  | .jnum q => q == 0
  | .jstr s => s == ""
  | .jarr xs => xs.isEmpty
  | .jobj fs => fs.isEmpty

/-- Python `int()` applied to an exact number: truncation toward zero. -/
def pyIntOfRat (q : Rat) : Int :=
  if q < 0 then -(Int.floor (-q)) else Int.floor q

/-- Digits-to-number accumulator used by the numeric-string parsers. -/
def natFromDigits (cs : List Char) : Nat :=
  cs.foldl (fun a c => a * 10 + (c.toNat - 48)) 0

/-- Python `str.strip()`: drop whitespace from both ends. -/
def stripChars (cs : List Char) : List Char :=
  ((cs.dropWhile Char.isWhitespace).reverse.dropWhile Char.isWhitespace).reverse

/-- Python `str.split(sep)` for a one-character separator. -/
def splitOnChar (sep : Char) : List Char → List (List Char)
  | [] => [[]]
  | c :: rest =>
    match splitOnChar sep rest with
    | [] => [[c]]
    | g :: gs => if c == sep then [] :: g :: gs else (c :: g) :: gs

/-- Python `int(s)` on a string: strip, optional sign, decimal digits.
(Numeric-separator underscores and non-decimal bases are not used by this
repository and are elided.) -/
def parsePyInt (s : String) : Option Int :=
  let t := stripChars s.data
  let signBody : Int × List Char :=
    match t with
    | '-' :: r => (-1, r)
    | '+' :: r => (1, r)
    | cs => (1, cs)
  if !signBody.2.isEmpty && signBody.2.all Char.isDigit then
    some (signBody.1 * (natFromDigits signBody.2 : Int))
  else none

/-- Python `float(s)` on a string: strip, optional sign, `digits`,
`digits.digits`, `digits.` or `.digits`.  (Exponent, `inf` and `nan` forms are
not used by this repository and are elided.) -/
def parsePyFloat (s : String) : Option Rat :=
  let t := stripChars s.data
  let signBody : Rat × List Char :=
    match t with
    | '-' :: r => (-1, r)
    | '+' :: r => (1, r)
    | cs => (1, cs)
  match splitOnChar '.' signBody.2 with
  | [ip] =>
    if !ip.isEmpty && ip.all Char.isDigit then
      some (signBody.1 * (natFromDigits ip : Rat))
    else none
  | [ip, fp] =>
    if (ip.all Char.isDigit && fp.all Char.isDigit) && (!ip.isEmpty || !fp.isEmpty) then
      some (signBody.1 *
        ((natFromDigits ip : Rat) + (natFromDigits fp : Rat) / (10 : Rat) ^ fp.length))
    else none
  | _ => none

/-- Python `int(x)` on a dynamic value: bools and numbers coerce, numeric
strings parse, everything else raises (`ValueError`/`TypeError`). -/
def pyInt : JVal → Except String Int
  | .jbool b => .ok (if b then 1 else 0)
  | .jnum q => .ok (pyIntOfRat q)
  | .jstr s =>
    match parsePyInt s with
    | some n => .ok n
    | none => .error "ValueError"
  | _ => .error "TypeError"

/-- Python `float(x)` on a dynamic value. -/
def pyFloat : JVal → Except String Rat
  | .jbool b => .ok (if b then 1 else 0)
  | .jnum q => .ok q
  | .jstr s =>
    match parsePyFloat s with
    | some q => .ok q
    | none => .error "ValueError"
  | _ => .error "TypeError"

/-- Python `x * 100` on a dynamic value (used by the smart_panel volume
encoding): numbers scale, bools coerce, strings and lists repeat, the rest
raises `TypeError`. -/
def pyMul100 : JVal → Except String JVal
  | .jnum q => .ok (.jnum (q * 100))
  | .jbool b => .ok (.jnum (if b then 100 else 0))
  | .jstr s => .ok (.jstr (String.join (List.replicate 100 s)))
  | .jarr xs => .ok (.jarr (List.flatten (List.replicate 100 xs)))
  | _ => .error "TypeError"

/-- `str(x).lower() == "on"`: only string values can render as a case variant
of `"on"` (`str` of `None`/bools/numbers/lists never does). -/
def strLowerIsOn : JVal → Bool
  | .jstr s => String.mk (s.data.map Char.toLower) == "on"
  | _ => false

/-- Python `x == "on"`-style comparison against a string literal: values of
other runtime types never compare equal to a `str`. -/
def isJStrEq (v : JVal) (s : String) : Bool :=
  match v with
  | .jstr t => t == s
  | _ => false

/-- `entity_id.split(".")[0]`: the domain prefix of an entity reference
(the whole string when it has no dot). -/
def domainOf (e : String) : String :=
  String.mk (e.data.takeWhile (fun c => c != '.'))

/-- A message published to the bus. -/
structure Pub where
  topic : String
  payload : JVal

/-- A backend service call `hass.services.async_call(domain, service, data)`. -/
structure Call where
  domain : String
  service : String
  data : Fields

/-- Observable outcome of one inbound action message: the backend calls made,
the log lines emitted, and the exception (if any) escaping to the caller. -/
structure ActionResult where
  calls : List Call
  logs : List String
  escaped : Option String

/-! ## mesh_panel: `panel_manager.py` -/

/-- The mesh_panel state topic `smartpanel/<panel_id>/state`. -/
def stateTopic (pid : String) : String :=
  "smartpanel/" ++ pid ++ "/state"

/-- The mesh_panel UI topic `smartpanel/<panel_id>/ui`. -/
def uiTopic (pid : String) : String :=
  "smartpanel/" ++ pid ++ "/ui"

/-- `r, g, b = attrs[ATTR_RGB_COLOR]` followed by `int(r), int(g), int(b)`
(`MeshPanelManager._push_state`, lines 172-173).  Unpacking needs an iterable
of exactly three items; a three-character string unpacks to its characters. -/
def rgbTriple (v : JVal) : Except String (Int × Int × Int) :=
  match v with
  | .jarr [x, y, z] =>
    match pyInt x, pyInt y, pyInt z with
    | .ok r, .ok g, .ok b => .ok (r, g, b)
    | .error e, _, _ => .error e
    | _, .error e, _ => .error e
    | _, _, .error e => .error e
  | .jarr _ => .error "ValueError"
  | .jstr s =>
    match s.data with
    | [a, b, c] =>
      match pyInt (.jstr (String.mk [a])), pyInt (.jstr (String.mk [b])),
            pyInt (.jstr (String.mk [c])) with
      | .ok r, .ok g, .ok b' => .ok (r, g, b')
      | .error e, _, _ => .error e
      | _, .error e, _ => .error e
      | _, _, .error e => .error e
    | _ => .error "ValueError"
  | _ => .error "TypeError"

/-- The `value` field of the outbound mesh_panel state payload
(`_push_state` lines 159-167): `brightness`, else `current_position`, else
`volume_level`.  `int(attrs[...])` on the first two is NOT guarded, so its
failure propagates; the `volume_level` coercion is inside `try/except: pass`
and a failure merely omits the field. -/
def meshValueField (attrs : Fields) : Except String (Option JVal) :=
  if hasKey attrs "brightness" then
    match pyInt ((lookupKey attrs "brightness").getD .jnull) with
    | .ok v => .ok (some (.jnum (v : Rat)))
    | .error e => .error e
  else if hasKey attrs "current_position" then
    match pyInt ((lookupKey attrs "current_position").getD .jnull) with
    | .ok v => .ok (some (.jnum (v : Rat)))
    | .error e => .error e
  else if hasKey attrs "volume_level" then
    match pyFloat ((lookupKey attrs "volume_level").getD .jnull) with
    | .ok f => .ok (some (.jnum (pyIntOfRat (f * 100) : Rat)))
    | .error _ => .ok none
  else .ok none

/-- The `rgb_color` field of the outbound mesh_panel state payload
(`_push_state` lines 170-175); the whole block is inside `try/except: pass`,
so a failure merely omits the field. -/
def meshRgbField (attrs : Fields) : Option JVal :=
  if hasKey attrs "rgb_color" then
    match rgbTriple ((lookupKey attrs "rgb_color").getD .jnull) with
    | .ok t => some (.jarr [.jnum (t.1 : Rat), .jnum (t.2.1 : Rat), .jnum (t.2.2 : Rat)])
    | .error _ => none
  else none

/-- `MeshPanelManager._push_state` (lines 155-177): builds ONE payload
`\x7bentity, state[, value][, rgb_color]\x7d` and publishes it in a single
message; an unguarded coercion failure raises and nothing is published. -/
def meshPushState (pid entity state : String) (attrs : Fields) : Except String Pub :=
  let p0 : Fields := [("entity", .jstr entity), ("state", .jstr state)]
  match meshValueField attrs with
  | .error e => .error e
  | .ok vopt =>
    let p1 := match vopt with
      | some v => p0 ++ [("value", v)]
      | none => p0
    let p2 := match meshRgbField attrs with
      | some c => p1 ++ [("rgb_color", c)]
      | none => p1
    .ok ⟨stateTopic pid, .jobj p2⟩

/-- Messages published by one mesh_panel state change (empty when the handler
raises). -/
def meshPushMessages (pid entity state : String) (attrs : Fields) : List Pub :=
  match meshPushState pid entity state attrs with
  | .ok m => [m]
  | .error _ => []

/-- Body of `MeshPanelManager._handle_action` after a truthy string
`entity_id` was extracted (lines 105-145): the first present field of
`state`/`value`/`rgb_color`/`option` selects the service. -/
def meshDispatch (e : String) (fields : Fields) : ActionResult :=
  let domain := domainOf e
  if hasKey fields "state" then
    let service :=
      if strLowerIsOn ((lookupKey fields "state").getD .jnull) then "turn_on" else "turn_off"
    ⟨[⟨domain, service, [("entity_id", .jstr e)]⟩], [], none⟩
  else if hasKey fields "value" then
    match pyInt ((lookupKey fields "value").getD .jnull) with
    | .error err => ⟨[], [], some err⟩
    | .ok val =>
      if domain == "light" then
        ⟨[⟨domain, "turn_on", [("entity_id", .jstr e), ("brightness", .jnum (val : Rat))]⟩], [], none⟩
      else if domain == "fan" then
        ⟨[⟨domain, "turn_on", [("entity_id", .jstr e), ("percentage", .jnum (val : Rat))]⟩], [], none⟩
      else if domain == "cover" then
        ⟨[⟨domain, "set_cover_position", [("entity_id", .jstr e), ("position", .jnum (val : Rat))]⟩], [], none⟩
      else if domain == "number" || domain == "input_number" then
        ⟨[⟨domain, "set_value", [("entity_id", .jstr e), ("value", .jnum (val : Rat))]⟩], [], none⟩
      else if domain == "media_player" then
        ⟨[⟨domain, "volume_set", [("entity_id", .jstr e), ("volume_level", .jnum ((val : Rat) / 100))]⟩], [], none⟩
      else ⟨[], [], none⟩
  else if hasKey fields "rgb_color" then
    if domain == "light" then
      ⟨[⟨domain, "turn_on",
        [("entity_id", .jstr e), ("rgb_color", (lookupKey fields "rgb_color").getD .jnull)]⟩], [], none⟩
    else ⟨[], [], none⟩
  else if hasKey fields "option" then
    if domain == "select" || domain == "input_select" then
      ⟨[⟨domain, "select_option",
        [("entity_id", .jstr e), ("option", (lookupKey fields "option").getD .jnull)]⟩], [], none⟩
    else if domain == "media_player" then
      ⟨[⟨domain, "select_source",
        [("entity_id", .jstr e), ("source", (lookupKey fields "option").getD .jnull)]⟩], [], none⟩
    else ⟨[], [], none⟩
  else ⟨[], [], none⟩

/-- `MeshPanelManager._handle_action` (lines 95-145).  The input is the
outcome of `json.loads(msg.payload or "\x7b\x7d")`: `none` when it raised
(caught: silent return, nothing logged).  `data.get` on a non-dict and
`.split` on a truthy non-string id raise OUTSIDE the `try`, escaping to the
caller. -/
def meshHandleAction (parsed : Option JVal) : ActionResult :=
  match parsed with
  | none => ⟨[], [], none⟩
  | some data =>
    match data with
    | .jobj fields =>
      match lookupKey fields "id" with
      | none => ⟨[], [], none⟩
      | some idv =>
        if isFalsy idv then ⟨[], [], none⟩
        else
          match idv with
          | .jstr e => meshDispatch e fields
          | _ => ⟨[], [], some "AttributeError"⟩
    | _ => ⟨[], [], some "AttributeError"⟩

/-- Processing a stream of inbound action messages: the handler keeps no
state between messages, so the stream result is the per-message map. -/
def meshProcess (msgs : List (Option JVal)) : List ActionResult :=
  msgs.map meshHandleAction

/-- The parsed value of `DEFAULT_LAYOUT` (`const.py` lines 8-23), which is a
valid JSON object. -/
def defaultLayoutVal : JVal :=
  .jobj [("devices", .jarr [
    .jobj [("name", .jstr "Living Room"),
           ("icon", .jstr "sofa"),
           ("state_entity", .jstr "sensor.living_room_temperature"),
           ("controls", .jarr [
             .jobj [("label", .jstr "Main Light"), ("type", .jstr "switch"),
                    ("entity", .jstr "light.living_room_main")],
             .jobj [("label", .jstr "Brightness"), ("type", .jstr "slider"),
                    ("entity", .jstr "light.living_room_main"),
                    ("min", .jnum 0), ("max", .jnum 255), ("step", .jnum 1)],
             .jobj [("label", .jstr "Color"), ("type", .jstr "color"),
                    ("entity", .jstr "light.living_room_main")]])]])]

/-- The outcome of the two text parses `_coerce_layout` attempts on its input
string: whether the string is empty/whitespace-only, and what `json.loads`
resp. `yaml.safe_load` produce on it (`none` = the parser raised). -/
structure LayoutText where
  blank : Bool
  jsonRes : Option JVal
  yamlRes : Option JVal

/-- Is the value a dict? (`isinstance(data, dict)`). -/
def isObjVal : JVal → Bool
  | .jobj _ => true
  | _ => false

/-- The YAML fallback of `_coerce_layout` (lines 30-36). -/
def coerceLayoutYaml : Option JVal → JVal
  | some d => if isObjVal d then d else .jobj [("devices", .jarr [])]
  | none => .jobj [("devices", .jarr [])]

/-- `_coerce_layout` (`panel_manager.py` lines 19-36): substitute
`DEFAULT_LAYOUT` (valid JSON, parsing to `defaultLayoutVal`) for blank input,
try JSON, fall through to YAML unless a dict was obtained, else return
`\x7b"devices": []\x7d`. -/
def coerceLayout (t : LayoutText) : JVal :=
  let jsonRes := if t.blank then some defaultLayoutVal else t.jsonRes
  let yamlRes := if t.blank then some defaultLayoutVal else t.yamlRes
  match jsonRes with
  | some d => if isObjVal d then d else coerceLayoutYaml yamlRes
  | none => coerceLayoutYaml yamlRes

/-- Append to the watch set unless already present (Python `set.add`;
iteration order modelled as insertion order — the claims below are
per-element, hence order-independent). -/
def addUnique (l : List String) (s : String) : List String :=
  if s ∈ l then l else l ++ [s]

/-- Control loop of the mesh_panel watch-set collection (`async_setup` lines
58-61): `c.get("entity")` requires each control to be a dict; a truthy entity
is added.  Non-string truthy entity values are hashable numbers at most; the
backend knows no state for them, so they are not tracked by the model. -/
def collectControls (acc : List String) : List JVal → Except String (List String)
  | [] => .ok acc
  | c :: rest =>
    match c with
    | .jobj fs =>
      let acc' := match lookupKey fs "entity" with
        | some (.jstr s) => if s == "" then acc else addUnique acc s
        | _ => acc
      collectControls acc' rest
    | _ => .error "AttributeError"

/-- One device of the mesh_panel watch-set collection (`async_setup` lines
54-61): a truthy `state_entity` is added, then the device's controls are
scanned.  `dev.get("controls", [])` yields an empty iteration for a missing
key, an empty string or an empty dict; other non-lists fail to iterate into
dicts. -/
def collectDeviceWatch (acc : List String) (dev : JVal) : Except String (List String) :=
  match dev with
  | .jobj fs =>
    let acc₁ := match lookupKey fs "state_entity" with
      | some (.jstr s) => if s == "" then acc else addUnique acc s
      | _ => acc
    match lookupKey fs "controls" with
    | some (.jarr cs) => collectControls acc₁ cs
    | some (.jstr s) => if s == "" then .ok acc₁ else .error "AttributeError"
    | some (.jobj kvs) => if kvs.isEmpty then .ok acc₁ else .error "AttributeError"
    | some _ => .error "TypeError"
    | none => .ok acc₁
  | _ => .error "AttributeError"

/-- Fold of `collectDeviceWatch` over the devices list. -/
def collectDevices (acc : List String) : List JVal → Except String (List String)
  | [] => .ok acc
  | d :: rest =>
    match collectDeviceWatch acc d with
    | .ok acc' => collectDevices acc' rest
    | .error e => .error e

/-- `self.entities_to_watch` as computed by `MeshPanelManager.async_setup`
(lines 50-61) from the coerced layout: `cfg.get("devices", [])`, then every
truthy `state_entity` and control `entity`. -/
def meshWatchList (cfg : JVal) : Except String (List String) :=
  match cfg with
  | .jobj fs =>
    match (lookupKey fs "devices").getD (.jarr []) with
    | .jarr ds => collectDevices [] ds
    | .jstr s => if s == "" then .ok [] else .error "AttributeError"
    | .jobj kvs => if kvs.isEmpty then .ok [] else .error "AttributeError"
    | _ => .error "TypeError"
  | _ => .error "AttributeError"

/-- The initial state pushes of `async_setup` (lines 79-82): for each watched
entity whose state the backend knows, `_push_state` is invoked. -/
def pushAll (pid : String) (states : String → Option (String × Fields)) :
    List String → Except String (List Pub)
  | [] => .ok []
  | e :: rest =>
    match states e with
    | none => pushAll pid states rest
    | some (st, attrs) =>
      match meshPushState pid e st attrs with
      | .error err => .error err
      | .ok m =>
        match pushAll pid states rest with
        | .error err => .error err
        | .ok ms => .ok (m :: ms)

/-- `MeshPanelManager.async_setup` (lines 48-82) restricted to its published
messages: the retained UI snapshot, then one synthesized state message per
watched entity currently known to the backend.  (The action subscription and
the state-change tracking publish nothing at setup time.) -/
def meshAsyncSetup (pid : String) (cfg : JVal)
    (states : String → Option (String × Fields)) : Except String (List Pub) :=
  match meshWatchList cfg with
  | .error e => .error e
  | .ok watch =>
    match pushAll pid states watch with
    | .error e => .error e
    | .ok pushes => .ok (⟨uiTopic pid, cfg⟩ :: pushes)

/-! ## smart_panel: `__init__.py` -/

/-- Body of `SmartPanelController.handle_action` (lines 81-132) as the list
of backend calls, or the exception the body raises (always caught by the
surrounding `try/except`). -/
def smartDispatch (e : String) (fields : Fields) : Except String (List Call) :=
  let domain := domainOf e
  if hasKey fields "state" then
    let service :=
      if isJStrEq ((lookupKey fields "state").getD .jnull) "on" then "turn_on" else "turn_off"
    .ok [⟨domain, service, [("entity_id", .jstr e)]⟩]
  else if hasKey fields "value" then
    match pyInt ((lookupKey fields "value").getD .jnull) with
    | .error err => .error err
    | .ok val =>
      if domain == "light" then
        .ok [⟨domain, "turn_on", [("entity_id", .jstr e), ("brightness", .jnum (val : Rat))]⟩]
      else if domain == "fan" then
        .ok [⟨domain, "turn_on", [("entity_id", .jstr e), ("percentage", .jnum (val : Rat))]⟩]
      else if domain == "number" || domain == "input_number" then
        .ok [⟨domain, "set_value", [("entity_id", .jstr e), ("value", .jnum (val : Rat))]⟩]
      else if domain == "media_player" then
        let vl : JVal := if val > 1 then .jnum ((val : Rat) / 100) else .jnum (val : Rat)
        .ok [⟨domain, "volume_set", [("entity_id", .jstr e), ("volume_level", vl)]⟩]
      else if domain == "cover" then
        .ok [⟨domain, "set_cover_position", [("entity_id", .jstr e), ("position", .jnum (val : Rat))]⟩]
      else if domain == "climate" then
        .ok [⟨domain, "set_temperature", [("entity_id", .jstr e), ("temperature", .jnum (val : Rat))]⟩]
      else .ok []
  else if hasKey fields "rgb_color" then
    .ok [⟨domain, "turn_on",
      [("entity_id", .jstr e), ("rgb_color", (lookupKey fields "rgb_color").getD .jnull)]⟩]
  else if hasKey fields "option" then
    let opt := (lookupKey fields "option").getD .jnull
    if domain == "select" || domain == "input_select" then
      .ok [⟨domain, "select_option", [("entity_id", .jstr e), ("option", opt)]⟩]
    else if domain == "media_player" then
      .ok [⟨domain, "select_source", [("entity_id", .jstr e), ("source", opt)]⟩]
    else if domain == "climate" then
      .ok [⟨domain, "set_hvac_mode", [("entity_id", .jstr e), ("hvac_mode", opt)]⟩]
    else .ok []
  else .ok []

/-- The raising body of `SmartPanelController.handle_action`: parse failure
raises; `data.get` on a non-dict and `.split` on a non-string (including the
`None` of a missing `id`) raise `AttributeError`. -/
def smartHandleActionBody (parsed : Option JVal) : Except String (List Call) :=
  match parsed with
  | none => .error "json decode"
  | some data =>
    match data with
    | .jobj fields =>
      match lookupKey fields "id" with
      | none => .error "AttributeError"
      | some idv =>
        match idv with
        | .jstr e => smartDispatch e fields
        | _ => .error "AttributeError"
    | _ => .error "AttributeError"

/-- `SmartPanelController.handle_action` (lines 79-135): any exception in the
body is caught and logged (`"ESP32 Panel Action Error"`); nothing escapes to
the message-bus subscription. -/
def smartHandleAction (parsed : Option JVal) : ActionResult :=
  match smartHandleActionBody parsed with
  | .ok calls => ⟨calls, [], none⟩
  | .error e => ⟨[], ["ESP32 Panel Action Error: " ++ e], none⟩

/-- Processing a stream of inbound action messages by smart_panel. -/
def smartProcess (msgs : List (Option JVal)) : List ActionResult :=
  msgs.map smartHandleAction

/-- The trailing attribute messages of `handle_ha_state_change` (lines
161-174): `percentage`, `current_position` and `rgb_color` are forwarded
verbatim, no coercion can fail. -/
def smartTail (t e : String) (attrs : Fields) (acc : List Pub) : List Pub :=
  let acc₁ :=
    if hasKey attrs "percentage" then
      acc ++ [⟨t, .jobj [("entity", .jstr e), ("value", (lookupKey attrs "percentage").getD .jnull)]⟩]
    else acc
  let acc₂ :=
    if hasKey attrs "current_position" then
      acc₁ ++ [⟨t, .jobj [("entity", .jstr e), ("value", (lookupKey attrs "current_position").getD .jnull)]⟩]
    else acc₁
  if hasKey attrs "rgb_color" then
    acc₂ ++ [⟨t, .jobj [("entity", .jstr e), ("rgb_color", (lookupKey attrs "rgb_color").getD .jnull)]⟩]
  else acc₂

/-- `SmartPanelController.handle_ha_state_change` (lines 137-174): publishes
the base `\x7bentity, state\x7d` message, then one SEPARATE message per present
attribute.  Only `volume_level` is coerced (`int(attrs["volume_level"] * 100)`,
unguarded): its failure raises out of the handler after the earlier messages
have already been published, skipping the remaining attributes.  Returns the
messages published and the escaping exception, if any. -/
def smartHandleStateChange (t entity state : String) (attrs : Fields) :
    List Pub × Option String :=
  let base : Pub := ⟨t, .jobj [("entity", .jstr entity), ("state", .jstr state)]⟩
  let acc₀ := [base]
  let acc₁ :=
    if hasKey attrs "brightness" then
      acc₀ ++ [⟨t, .jobj [("entity", .jstr entity), ("value", (lookupKey attrs "brightness").getD .jnull)]⟩]
    else acc₀
  if hasKey attrs "volume_level" then
    match pyMul100 ((lookupKey attrs "volume_level").getD .jnull) with
    | .error e => (acc₁, some e)
    | .ok x =>
      match pyInt x with
      | .error e => (acc₁, some e)
      | .ok vol =>
        let acc₂ := acc₁ ++ [⟨t, .jobj [("entity", .jstr entity), ("value", .jnum (vol : Rat))]⟩]
        (smartTail t entity attrs acc₂, none)
  else (smartTail t entity attrs acc₁, none)

/-- Watch-set collection over one smart_panel device's controls (`start`
lines 60-62): membership test `"entity" in c`, value added verbatim
(non-string values are never known to the backend and are not tracked). -/
def smartCollectControls (acc : List String) : List JVal → Except String (List String)
  | [] => .ok acc
  | c :: rest =>
    match c with
    | .jobj fs =>
      let acc' := match lookupKey fs "entity" with
        | some (.jstr s) => addUnique acc s
        | _ => acc
      smartCollectControls acc' rest
    | _ => .error "AttributeError"

/-- Watch-set collection over the smart_panel devices list (`start` lines
56-62): membership test `"state_entity" in dev`, then the controls. -/
def smartCollectDevices (acc : List String) : List JVal → Except String (List String)
  | [] => .ok acc
  | d :: rest =>
    match d with
    | .jobj fs =>
      let acc₁ := match lookupKey fs "state_entity" with
        | some (.jstr s) => addUnique acc s
        | _ => acc
      let step := match lookupKey fs "controls" with
        | some (.jarr cs) => smartCollectControls acc₁ cs
        | some (.jstr s) => if s == "" then .ok acc₁ else .error "AttributeError"
        | some (.jobj kvs) => if kvs.isEmpty then .ok acc₁ else .error "AttributeError"
        | some _ => .error "TypeError"
        | none => .ok acc₁
      match step with
      | .ok acc₂ => smartCollectDevices acc₂ rest
      | .error e => .error e
    | _ => .error "AttributeError"

/-- `self.watched_entities` as collected by `SmartPanelController.start`. -/
def smartCollectWatch (devicesConfig : JVal) : Except String (List String) :=
  match devicesConfig with
  | .jarr ds => smartCollectDevices [] ds
  | _ => .error "TypeError"

/-- `SmartPanelController.start` (lines 51-71) restricted to its published
messages.  It subscribes and collects the watch set, then publishes ONLY the
retained UI snapshot `\x7b"devices": ...\x7d` — it reads no backend state and
synthesizes no initial state messages (contrast `meshAsyncSetup`).  A falsy
`devices_config` skips everything including the UI publish. -/
def smartStart (topicBase : String) (devicesConfig : JVal) : List Pub × Option String :=
  if isFalsy devicesConfig then ([], none)
  else
    match smartCollectWatch devicesConfig with
    | .error e => ([], some e)
    | .ok _ => ([⟨topicBase ++ "/ui", .jobj [("devices", devicesConfig)]⟩], none)

/-! ## mesh_panel: `options_flow.py` -/

/-- Modelled from the spec: the key-name constants (`CONF_ID`, `CONF_NAME`,
`CONF_ICON`, `CONF_CONTROLS`, `CONF_LABEL`, `CONF_TYPE`, `CONF_ENTITY`,
`CONF_OPTIONS`, `CONF_DEVICES`) that `options_flow.py` imports from a `const`
module whose definitions are absent from `src/`; the spec's data model (§3)
and wire format (§6) fix the field names. -/
def CONF_ID : String := "id"

/-- Modelled from the spec: see `CONF_ID`. -/
def CONF_NAME : String := "name"

/-- Modelled from the spec: see `CONF_ID`. -/
def CONF_ICON : String := "icon"

/-- Modelled from the spec: see `CONF_ID`. -/
def CONF_CONTROLS : String := "controls"

/-- Modelled from the spec: see `CONF_ID`. -/
def CONF_LABEL : String := "label"

/-- Modelled from the spec: see `CONF_ID`. -/
def CONF_TYPE : String := "type"

/-- Modelled from the spec: see `CONF_ID`. -/
def CONF_ENTITY : String := "entity"

/-- Modelled from the spec: see `CONF_ID`. -/
def CONF_OPTIONS : String := "options"

/-- `str(uuid.uuid4())` modelled as a fresh-id supply indexed by a counter:
distinct indices give distinct ids, which is all the source relies on. -/
def mkId (n : Nat) : String := "uuid-" ++ toString n

/-- `c.setdefault(CONF_ID, str(uuid.uuid4()))` on one control
(`_ensure_ids`, line 50); a non-dict control raises `AttributeError`. -/
def ensureControl (c : JVal) (n : Nat) : Except String (JVal × Nat) :=
  match c with
  | .jobj fs =>
    if hasKey fs CONF_ID then .ok (.jobj fs, n)
    else .ok (.jobj (fs ++ [(CONF_ID, .jstr (mkId n))]), n + 1)
  | _ => .error "AttributeError"

/-- The control loop of `_ensure_ids` (lines 49-50). -/
def ensureControlList : List JVal → Nat → Except String (List JVal × Nat)
  | [], n => .ok ([], n)
  | c :: rest, n =>
    match ensureControl c n with
    | .error e => .error e
    | .ok (c', n₁) =>
      match ensureControlList rest n₁ with
      | .error e => .error e
      | .ok (rest', n₂) => .ok (c' :: rest', n₂)

/-- `for c in d[CONF_CONTROLS]` over the controls VALUE (which `setdefault`
only guarantees to exist, not to be a list): a list is traversed per element;
an empty string or empty dict iterates vacuously; a non-empty string or dict
yields strings, whose `setdefault` raises `AttributeError`; anything else is
not iterable. -/
def ensureControlsVal (v : JVal) (n : Nat) : Except String (JVal × Nat) :=
  match v with
  | .jarr cs =>
    match ensureControlList cs n with
    | .error e => .error e
    | .ok (cs', n') => .ok (.jarr cs', n')
  | .jstr s => if s == "" then .ok (.jstr s, n) else .error "AttributeError"
  | .jobj fs => if fs.isEmpty then .ok (.jobj fs, n) else .error "AttributeError"
  | _ => .error "TypeError"

/-- `d.setdefault(CONF_ID, str(uuid.uuid4()))` on a device dict
(`_ensure_ids`, line 47). -/
def ensureIdField (fs : Fields) (n : Nat) : Fields × Nat :=
  if hasKey fs CONF_ID then (fs, n) else (fs ++ [(CONF_ID, .jstr (mkId n))], n + 1)

/-- `d.setdefault(CONF_CONTROLS, [])` on a device dict (`_ensure_ids`,
line 48). -/
def ensureControlsField (fs : Fields) : Fields :=
  if hasKey fs CONF_CONTROLS then fs else fs ++ [(CONF_CONTROLS, .jarr [])]

/-- One device of `_ensure_ids` (lines 47-50): `setdefault` id, `setdefault`
an empty controls list, then ensure every control's id (mutating the controls
value in place). -/
def ensureDevice (d : JVal) (n : Nat) : Except String (JVal × Nat) :=
  match d with
  | .jobj fs =>
    let p := ensureIdField fs n
    let fs₂ := ensureControlsField p.1
    match ensureControlsVal ((lookupKey fs₂ CONF_CONTROLS).getD .jnull) p.2 with
    | .error e => .error e
    | .ok (cv', n₂) => .ok (.jobj (setKey fs₂ CONF_CONTROLS cv'), n₂)
  | _ => .error "AttributeError"

/-- The device loop of `_ensure_ids` (lines 46-50) over an actual list. -/
def ensureDevices : List JVal → Nat → Except String (List JVal × Nat)
  | [], n => .ok ([], n)
  | d :: rest, n =>
    match ensureDevice d n with
    | .error e => .error e
    | .ok (d', n₁) =>
      match ensureDevices rest n₁ with
      | .error e => .error e
      | .ok (rest', n₂) => .ok (d' :: rest', n₂)

/-- `_ensure_ids(devices)` (lines 44-51) on an arbitrary value: `for d in
devices or []` iterates vacuously on falsy input (returning the input
unchanged); a truthy non-list either yields non-dicts (`AttributeError` on
`setdefault`) or is not iterable (`TypeError`). -/
def ensureIdsVal (v : JVal) (n : Nat) : Except String (JVal × Nat) :=
  if isFalsy v then .ok (v, n)
  else
    match v with
    | .jarr ds =>
      match ensureDevices ds n with
      | .error e => .error e
      | .ok (ds', n') => .ok (.jarr ds', n')
    | .jstr _ => .error "AttributeError"
    | .jobj _ => .error "AttributeError"
    | _ => .error "TypeError"

/-- The control checks of `_validate_devices` (lines 66-71). -/
def validateControlList : List JVal → Except String Unit
  | [] => .ok ()
  | c :: rest =>
    match c with
    | .jobj fs =>
      if !(hasKey fs CONF_ID) then .error "ValueError: control missing key id"
      else if !(hasKey fs CONF_LABEL) then .error "ValueError: control missing key label"
      else if !(hasKey fs CONF_TYPE) then .error "ValueError: control missing key type"
      else if !(hasKey fs CONF_ENTITY) then .error "ValueError: control missing key entity"
      else validateControlList rest
    | _ => .error "ValueError: control must be an object"

/-- The device checks of `_validate_devices` (lines 58-71). -/
def validateDeviceList : List JVal → Except String Unit
  | [] => .ok ()
  | d :: rest =>
    match d with
    | .jobj fs =>
      if !(hasKey fs CONF_NAME) then .error "ValueError: device missing key name"
      else if !(hasKey fs CONF_ICON) then .error "ValueError: device missing key icon"
      else if !(hasKey fs CONF_CONTROLS) then .error "ValueError: device missing key controls"
      else if !(hasKey fs CONF_ID) then .error "ValueError: device missing key id"
      else
        match lookupKey fs CONF_CONTROLS with
        | some (.jarr cs) =>
          match validateControlList cs with
          | .error e => .error e
          | .ok _ => validateDeviceList rest
        | _ => .error "ValueError: controls must be a list"
    | _ => .error "ValueError: device must be an object"

/-- `_validate_devices` (lines 54-71): raises `ValueError` on structural
problems. -/
def validateDevices (v : JVal) : Except String Unit :=
  match v with
  | .jarr ds => validateDeviceList ds
  | _ => .error "ValueError: devices must be a list"

/-- The outcome of decoding the raw editor text: blank after stripping,
undecodable by both `json.loads` and `yaml.safe_load`, or decoded to a
value. -/
inductive RawText where
  | blank
  | undecodable
  | parsed (v : JVal)

/-- How a raw-editor failure leaves `_parse_raw_to_devices`: as a
`ValueError` (which `async_step_yaml_editor`/`async_step_json_editor` catch)
or as any other Python exception (which they do NOT catch). -/
inductive RawErr where
  | valueError (msg : String)
  | pyError (msg : String)

/-- `_parse_raw_to_devices` (lines 74-97): blank text gives `[]`; an
undecodable text raises `ValueError`; the decoded value must be a dict with a
`devices` key; `devices = data.get("devices") or []` is id-ensured FIRST and
only then validated — so a truthy non-list `devices` raises
`AttributeError`/`TypeError` inside `_ensure_ids`, not the `ValueError` of
`_validate_devices`. -/
def parseRawToDevices (raw : RawText) (n : Nat) : Except RawErr (JVal × Nat) :=
  match raw with
  | .blank => .ok (.jarr [], n)
  | .undecodable => .error (.valueError "Invalid YAML/JSON")
  | .parsed data =>
    match data with
    | .jobj fs =>
      if hasKey fs "devices" then
        let devices₀ := (lookupKey fs "devices").getD .jnull
        let devices₁ := if isFalsy devices₀ then .jarr [] else devices₀
        match ensureIdsVal devices₁ n with
        | .error e => .error (.pyError e)
        | .ok (devs, n') =>
          match validateDevices devs with
          | .error m => .error (.valueError m)
          | .ok _ => .ok (devs, n')
      else .error (.valueError "Root must be an object with a devices key")
    | _ => .error (.valueError "Root must be an object with a devices key")

mutual

/-- Compact JSON rendering of a value.  The claims only need that the cached
raw texts are re-derived from the committed devices; `json.dumps(..., indent=2)`
whitespace, string escaping and decimal float formatting are abstracted to
this canonical rendering. -/
def renderJson : JVal → String
  | .jnull => "null"
  | .jbool b => if b then "true" else "false"
  | .jnum q => if q.den == 1 then toString q.num else toString q
  | .jstr s => "\"" ++ s ++ "\""
  | .jarr xs => "[" ++ renderArr xs ++ "]"
  | .jobj fs => "\x7b" ++ renderObj fs ++ "\x7d"

def renderArr : List JVal → String
  | [] => ""
  | [x] => renderJson x
  | x :: y :: rest => renderJson x ++ ", " ++ renderArr (y :: rest)

def renderObj : List (String × JVal) → String
  | [] => ""
  | [(k, v)] => "\"" ++ k ++ "\": " ++ renderJson v
  | (k, v) :: q :: rest => "\"" ++ k ++ "\": " ++ renderJson v ++ ", " ++ renderObj (q :: rest)

end

/-- `_pretty_json(devices)` (lines 34-35): `json.dumps(\x7b"devices": devices
or []\x7d)` under the rendering abstraction above. -/
def prettyJson (devices : JVal) : String :=
  renderJson (.jobj [("devices", if isFalsy devices then .jarr [] else devices)])

/-- `_pretty_yaml(devices)` (lines 38-41): `yaml.safe_dump(\x7b"devices":
devices or []\x7d)`.  Any JSON document is valid YAML; block formatting of
`yaml.safe_dump` is abstracted to the same canonical rendering. -/
def prettyYaml (devices : JVal) : String :=
  renderJson (.jobj [("devices", if isFalsy devices then .jarr [] else devices)])

/-- The in-progress options of `MeshPanelOptionsFlowHandler`: the committed
devices value and the two cached raw-text representations. -/
structure EditorOptions where
  devices : JVal
  rawYaml : String
  rawJson : String

/-- `_sync_raw_from_devices` (lines 409-417): id-ensure the devices in place
and regenerate both raw texts from them. -/
def syncRawFromDevices (opts : EditorOptions) (n : Nat) :
    Except String (EditorOptions × Nat) :=
  match ensureIdsVal opts.devices n with
  | .error e => .error e
  | .ok (devs, n') => .ok (⟨devs, prettyYaml devs, prettyJson devs⟩, n')

/-- Result of one raw-editor submit: redisplay with error markers, commit the
options, or a Python exception escaping the flow step. -/
inductive FlowResult where
  | showForm (errorKeys : List (String × String)) (opts : EditorOptions)
  | createEntry (opts : EditorOptions)
  | raised (msg : String) (opts : EditorOptions)

/-- `async_step_yaml_editor` / `async_step_json_editor` submit handling
(lines 420-464; the two steps differ only in the form-field name): run
`_parse_raw_to_devices`; on `ValueError` show `errors["base"] = "invalid"`
with the options untouched; on success commit the devices, re-derive both raw
texts and create the entry.  Any non-`ValueError` exception escapes. -/
def rawEditorSubmit (opts : EditorOptions) (raw : RawText) (n : Nat) : FlowResult :=
  match parseRawToDevices raw n with
  | .error (.valueError _) => .showForm [("base", "invalid")] opts
  | .error (.pyError m) => .raised m opts
  | .ok (devs, n') =>
    let opts₁ : EditorOptions := ⟨devs, opts.rawYaml, opts.rawJson⟩
    match syncRawFromDevices opts₁ n' with
    | .error m => .raised m opts₁
    | .ok (opts₂, _) => .createEntry opts₂

/-- The select-options normalization of `_save_control_and_back_to_controls`
(lines 387-392): a string containing a comma and no newline is split on
commas, each piece stripped, empty pieces dropped, and re-joined with
newlines; any other string is stored unchanged. -/
def normalizeSelectOptions (opts : String) : String :=
  if opts.data.contains ',' && !(opts.data.contains '\n') then
    String.mk (List.intercalate ['\n']
      (((splitOnChar ',' opts.data).map stripChars).filter (fun o => !o.isEmpty)))
  else opts

/-- The select branch of `_save_control_and_back_to_controls` (lines 386-392)
on the in-progress `control_data`: only a `type = "select"` control with a
string `options` value is rewritten. -/
def saveControlNormalize (controlData : Fields) : Fields :=
  match lookupKey controlData CONF_TYPE with
  | some (.jstr t) =>
    if t == "select" then
      match lookupKey controlData CONF_OPTIONS with
      | some (.jstr opts) =>
        setKey controlData CONF_OPTIONS (.jstr (normalizeSelectOptions opts))
      | _ => controlData
    else controlData
  | _ => controlData

/-! ## Analysis predicates (for the idempotence statements) -/

/-- A control already in post-`_ensure_ids` shape: a dict with an `id`. -/
def controlFull : JVal → Bool
  | .jobj fs => hasKey fs CONF_ID
  | _ => false

/-- A controls VALUE already in post-`_ensure_ids` shape: a list of full
controls, or one of the vacuous iterables `_ensure_ids` passes through. -/
def controlsValFull : JVal → Bool
  | .jarr cs => cs.all controlFull
  | .jstr s => s == ""
  | .jobj fs => fs.isEmpty
  | _ => false

/-- A device already in post-`_ensure_ids` shape: a dict with an `id` and a
full controls value. -/
def deviceFull : JVal → Bool
  | .jobj fs =>
    hasKey fs CONF_ID &&
      (match lookupKey fs CONF_CONTROLS with
       | some v => controlsValFull v
       | none => false)
  | _ => false

/-- Every device in the list is in post-`_ensure_ids` shape. -/
def devicesFull (ds : List JVal) : Bool :=
  ds.all deviceFull

/-- The `id` value of a device dict, if any. -/
def devId : JVal → Option JVal
  | .jobj fs => lookupKey fs CONF_ID
  | _ => none

/-! ## Helper lemmas -/

theorem pyIntOfRat_intCast (n : Int) : pyIntOfRat (n : Rat) = n := by
  unfold pyIntOfRat
  by_cases h : (n : Rat) < 0
  · rw [if_pos h, show (-(n : Rat)) = ((-n : Int) : Rat) by push_cast; ring,
      Int.floor_intCast]
    omega
  · rw [if_neg h, Int.floor_intCast]

theorem pyInt_intCast (n : Int) : pyInt (.jnum (n : Rat)) = .ok n := by
  simp [pyInt, pyIntOfRat_intCast]

/-! ## Claim theorems -/

/-- C1, counterexample: a state change carrying `brightness = 200` and
`rgb_color = [1,2,3]` makes the mesh_panel relay (`_push_state`) publish
exactly ONE message whose payload merges the base state, `value` and
`rgb_color` fields — not the three independently published messages the claim
requires. -/
theorem C1_counterexample :
    meshPushMessages "p" "light.x" "on"
      [("brightness", .jnum 200), ("rgb_color", .jarr [.jnum 1, .jnum 2, .jnum 3])] =
      [⟨stateTopic "p",
        .jobj [("entity", .jstr "light.x"), ("state", .jstr "on"),
               ("value", .jnum 200),
               ("rgb_color", .jarr [.jnum 1, .jnum 2, .jnum 3])]⟩] ∧
    (meshPushMessages "p" "light.x" "on"
      [("brightness", .jnum 200), ("rgb_color", .jarr [.jnum 1, .jnum 2, .jnum 3])]).length = 1 :=
  ⟨rfl, rfl⟩

/-- C1, amended: on a state change whose attributes are `brightness` and
`rgb_color`, the smart_panel relay publishes exactly 3 independent messages
(base `entity/state`, `entity/value`, `entity/rgb_color`) on the state topic,
while the mesh_panel relay publishes exactly one message merging all three
parts into a single payload. -/
theorem C1_amended_relay_message_shapes (t pid e st : String) (b r g bl : Int) :
    smartHandleStateChange t e st
      [("brightness", .jnum (b : Rat)),
       ("rgb_color", .jarr [.jnum (r : Rat), .jnum (g : Rat), .jnum (bl : Rat)])] =
      ([⟨t, .jobj [("entity", .jstr e), ("state", .jstr st)]⟩,
        ⟨t, .jobj [("entity", .jstr e), ("value", .jnum (b : Rat))]⟩,
        ⟨t, .jobj [("entity", .jstr e),
                   ("rgb_color", .jarr [.jnum (r : Rat), .jnum (g : Rat), .jnum (bl : Rat)])]⟩],
       none) ∧
    meshPushState pid e st
      [("brightness", .jnum (b : Rat)),
       ("rgb_color", .jarr [.jnum (r : Rat), .jnum (g : Rat), .jnum (bl : Rat)])] =
      .ok ⟨stateTopic pid,
        .jobj [("entity", .jstr e), ("state", .jstr st), ("value", .jnum (b : Rat)),
               ("rgb_color", .jarr [.jnum (r : Rat), .jnum (g : Rat), .jnum (bl : Rat)])]⟩ := by
  constructor
  · simp [smartHandleStateChange, smartTail, hasKey, lookupKey]
  · simp [meshPushState, meshValueField, meshRgbField, rgbTriple, hasKey, lookupKey,
      pyInt_intCast]

/-- C5, counterexample: a malformed (non-JSON-parseable) action payload makes
the mesh_panel handler (`_handle_action`) return silently with zero backend
calls and NO log line — the claim requires the failure to be logged. -/
theorem C5_counterexample :
    meshHandleAction none = ⟨[], [], none⟩ :=
  rfl

/-- C5, amended: a malformed action payload produces zero backend calls and
no exception in both variants, and the handling of subsequent messages is
unaffected (the handlers keep no state); smart_panel logs the failure, but
mesh_panel drops it silently without logging. -/
theorem C5_amended_malformed_payload (rest : List (Option JVal)) :
    meshHandleAction none = ⟨[], [], none⟩ ∧
    smartHandleAction none = ⟨[], ["ESP32 Panel Action Error: json decode"], none⟩ ∧
    meshProcess (none :: rest) = ⟨[], [], none⟩ :: meshProcess rest ∧
    smartProcess (none :: rest) =
      ⟨[], ["ESP32 Panel Action Error: json decode"], none⟩ :: smartProcess rest :=
  ⟨rfl, rfl, rfl, rfl⟩

/-- C6, counterexample: the JSON-parseable action payload `[1, 2]` lacks an
`id` field, yet the mesh_panel handler raises `AttributeError` to its caller
(`data.get` on a list, outside the `try`) instead of being a silent no-op. -/
theorem C6_counterexample :
    meshHandleAction (some (.jarr [.jnum 1, .jnum 2])) = ⟨[], [], some "AttributeError"⟩ :=
  rfl

/-- C6, amended: for JSON-OBJECT action payloads lacking an `id` field, both
handlers issue zero backend calls and raise nothing to their caller
(mesh_panel returns silently; smart_panel catches the internal
`AttributeError` of `None.split` and logs it).  A parseable non-object
payload instead makes mesh_panel raise, while smart_panel still catches and
logs. -/
theorem C6_amended_missing_id (fields : Fields)
    (h : lookupKey fields "id" = none) :
    meshHandleAction (some (.jobj fields)) = ⟨[], [], none⟩ ∧
    smartHandleAction (some (.jobj fields)) =
      ⟨[], ["ESP32 Panel Action Error: AttributeError"], none⟩ := by
  constructor
  · simp [meshHandleAction, h]
  · simp [smartHandleAction, smartHandleActionBody, h]

/-- Witness for `C6_amended_missing_id` at the concrete payload
`\x7b"value": 3\x7d`. -/
theorem C6_amended_missing_id_witness :
    meshHandleAction (some (.jobj [("value", .jnum 3)])) = ⟨[], [], none⟩ ∧
    smartHandleAction (some (.jobj [("value", .jnum 3)])) =
      ⟨[], ["ESP32 Panel Action Error: AttributeError"], none⟩ :=
  C6_amended_missing_id [("value", .jnum 3)] rfl

/-- C2, counterexample: the claim says a `value` action for a domain outside
its inbound table (light/fan/cover/number/input_number/media_player) issues
no call, but the smart_panel dispatcher maps domain `climate` to a
`set_temperature` call. -/
theorem C2_counterexample :
    smartHandleAction (some (.jobj [("id", .jstr "climate.x"), ("value", .jnum 25)])) =
      ⟨[⟨"climate", "set_temperature",
         [("entity_id", .jstr "climate.x"), ("temperature", .jnum 25)]⟩], [], none⟩ :=
  rfl

/-- C2, amended: the mesh_panel dispatcher follows the claimed table exactly
(light → `turn_on`+brightness, fan → `turn_on`+percentage, cover →
`set_cover_position`, number/input_number → `set_value`, media_player →
`volume_set` with `N/100`, any other domain → no call).  The smart_panel
dispatcher additionally maps climate to `set_temperature`, and for
media_player scales by 100 only when `N > 1`, passing `N ≤ 1` through
unscaled. -/
theorem C2_amended_value_dispatch :
    (∀ (e : String) (n : Int), domainOf e = "light" →
      meshHandleAction (some (.jobj [("id", .jstr e), ("value", .jnum (n : Rat))])) =
        ⟨[⟨"light", "turn_on", [("entity_id", .jstr e), ("brightness", .jnum (n : Rat))]⟩],
         [], none⟩) ∧
    (∀ (e : String) (n : Int), domainOf e = "fan" →
      meshHandleAction (some (.jobj [("id", .jstr e), ("value", .jnum (n : Rat))])) =
        ⟨[⟨"fan", "turn_on", [("entity_id", .jstr e), ("percentage", .jnum (n : Rat))]⟩],
         [], none⟩) ∧
    (∀ (e : String) (n : Int), domainOf e = "cover" →
      meshHandleAction (some (.jobj [("id", .jstr e), ("value", .jnum (n : Rat))])) =
        ⟨[⟨"cover", "set_cover_position",
           [("entity_id", .jstr e), ("position", .jnum (n : Rat))]⟩], [], none⟩) ∧
    (∀ (e : String) (n : Int), domainOf e = "number" ∨ domainOf e = "input_number" →
      meshHandleAction (some (.jobj [("id", .jstr e), ("value", .jnum (n : Rat))])) =
        ⟨[⟨domainOf e, "set_value", [("entity_id", .jstr e), ("value", .jnum (n : Rat))]⟩],
         [], none⟩) ∧
    (∀ (e : String) (n : Int), domainOf e = "media_player" →
      meshHandleAction (some (.jobj [("id", .jstr e), ("value", .jnum (n : Rat))])) =
        ⟨[⟨"media_player", "volume_set",
           [("entity_id", .jstr e), ("volume_level", .jnum ((n : Rat) / 100))]⟩], [], none⟩) ∧
    (∀ (e : String) (n : Int),
      domainOf e ∉ ["light", "fan", "cover", "number", "input_number", "media_player"] →
      meshHandleAction (some (.jobj [("id", .jstr e), ("value", .jnum (n : Rat))])) =
        ⟨[], [], none⟩) ∧
    (∀ (e : String) (n : Int), domainOf e = "climate" →
      smartHandleAction (some (.jobj [("id", .jstr e), ("value", .jnum (n : Rat))])) =
        ⟨[⟨"climate", "set_temperature",
           [("entity_id", .jstr e), ("temperature", .jnum (n : Rat))]⟩], [], none⟩) ∧
    (∀ (e : String) (n : Int), domainOf e = "media_player" →
      smartHandleAction (some (.jobj [("id", .jstr e), ("value", .jnum (n : Rat))])) =
        ⟨[⟨"media_player", "volume_set",
           [("entity_id", .jstr e),
            ("volume_level", if 1 < n then .jnum ((n : Rat) / 100) else .jnum (n : Rat))]⟩],
         [], none⟩) := by
  refine ⟨?_, ?_, ?_, ?_, ?_, ?_, ?_, ?_⟩
  · intro e n hdom
    cases he : e == "" with
    | true => exact absurd (by rw [eq_of_beq he] at hdom; exact hdom) (by decide)
    | false =>
      simp [meshHandleAction, lookupKey, isFalsy, he, meshDispatch, hasKey, pyInt_intCast, hdom]
  · intro e n hdom
    cases he : e == "" with
    | true => exact absurd (by rw [eq_of_beq he] at hdom; exact hdom) (by decide)
    | false =>
      simp [meshHandleAction, lookupKey, isFalsy, he, meshDispatch, hasKey, pyInt_intCast, hdom]
  · intro e n hdom
    cases he : e == "" with
    | true => exact absurd (by rw [eq_of_beq he] at hdom; exact hdom) (by decide)
    | false =>
      simp [meshHandleAction, lookupKey, isFalsy, he, meshDispatch, hasKey, pyInt_intCast, hdom]
  · intro e n hdom
    rcases hdom with hdom | hdom <;>
    · cases he : e == "" with
      | true => exact absurd (by rw [eq_of_beq he] at hdom; exact hdom) (by decide)
      | false =>
        simp [meshHandleAction, lookupKey, isFalsy, he, meshDispatch, hasKey, pyInt_intCast, hdom]
  · intro e n hdom
    cases he : e == "" with
    | true => exact absurd (by rw [eq_of_beq he] at hdom; exact hdom) (by decide)
    | false =>
      simp [meshHandleAction, lookupKey, isFalsy, he, meshDispatch, hasKey, pyInt_intCast, hdom]
  · intro e n hmem
    simp only [List.mem_cons, List.mem_singleton, not_or] at hmem
    obtain ⟨h1, h2, h3, h4, h5, h6, -⟩ := hmem
    cases he : e == "" with
    | true =>
      have : e = "" := eq_of_beq he
      subst this
      rfl
    | false =>
      simp [meshHandleAction, lookupKey, isFalsy, he, meshDispatch, hasKey, pyInt_intCast,
        beq_eq_false_iff_ne.mpr h1, beq_eq_false_iff_ne.mpr h2, beq_eq_false_iff_ne.mpr h3,
        beq_eq_false_iff_ne.mpr h4, beq_eq_false_iff_ne.mpr h5, beq_eq_false_iff_ne.mpr h6]
  · intro e n hdom
    simp [smartHandleAction, smartHandleActionBody, lookupKey, smartDispatch, hasKey,
      pyInt_intCast, hdom]
  · intro e n hdom
    simp [smartHandleAction, smartHandleActionBody, lookupKey, smartDispatch, hasKey,
      pyInt_intCast, hdom]

/-- Witness for `C2_amended_value_dispatch` at the concrete inputs of the
spec's inbound-codec examples plus the smart_panel divergences. -/
theorem C2_amended_value_dispatch_witness :
    meshHandleAction (some (.jobj [("id", .jstr "light.x"), ("value", .jnum 128)])) =
      ⟨[⟨"light", "turn_on", [("entity_id", .jstr "light.x"), ("brightness", .jnum 128)]⟩],
       [], none⟩ ∧
    meshHandleAction (some (.jobj [("id", .jstr "cover.z"), ("value", .jnum 30)])) =
      ⟨[⟨"cover", "set_cover_position",
         [("entity_id", .jstr "cover.z"), ("position", .jnum 30)]⟩], [], none⟩ ∧
    meshHandleAction (some (.jobj [("id", .jstr "media_player.y"), ("value", .jnum 50)])) =
      ⟨[⟨"media_player", "volume_set",
         [("entity_id", .jstr "media_player.y"), ("volume_level", .jnum ((50 : Rat) / 100))]⟩],
       [], none⟩ ∧
    meshHandleAction (some (.jobj [("id", .jstr "climate.x"), ("value", .jnum 25)])) =
      ⟨[], [], none⟩ ∧
    smartHandleAction (some (.jobj [("id", .jstr "media_player.y"), ("value", .jnum 1)])) =
      ⟨[⟨"media_player", "volume_set",
         [("entity_id", .jstr "media_player.y"), ("volume_level", .jnum 1)]⟩], [], none⟩ :=
  ⟨C2_amended_value_dispatch.1 "light.x" 128 rfl,
   C2_amended_value_dispatch.2.2.1 "cover.z" 30 rfl,
   C2_amended_value_dispatch.2.2.2.2.1 "media_player.y" 50 rfl,
   C2_amended_value_dispatch.2.2.2.2.2.1 "climate.x" 25 (by decide),
   C2_amended_value_dispatch.2.2.2.2.2.2.2 "media_player.y" 1 rfl⟩

set_option maxRecDepth 8192

/-- C3, counterexample: a non-numeric `brightness` makes `int()` raise
INSIDE `_push_state` before anything is published — the base `entity/state`
message is NOT published and the exception escapes the mesh_panel
state-change handler, contradicting the claim. -/
theorem C3_counterexample :
    meshPushState "p" "light.x" "on" [("brightness", .jstr "bad")] = .error "ValueError" ∧
    meshPushMessages "p" "light.x" "on" [("brightness", .jstr "bad")] = [] :=
  ⟨rfl, rfl⟩

/-- C3, amended: per-attribute catching holds only partially.  mesh_panel
guards only the `volume_level` and `rgb_color` coercions (a failure there
merely omits that field from its single merged message), while a failing
`brightness` (or `current_position`) coercion raises and nothing at all is
published.  smart_panel publishes the base message first and coerces only
`volume_level`, whose failure raises out of the handler after the earlier
messages, skipping the remaining attributes. -/
theorem C3_amended_partial_coercion_guard (pid t e st : String) :
    meshPushState pid e st
      [("volume_level", .jstr "bad"), ("rgb_color", .jarr [.jnum 1, .jnum 2, .jnum 3])] =
      .ok ⟨stateTopic pid,
        .jobj [("entity", .jstr e), ("state", .jstr st),
               ("rgb_color", .jarr [.jnum 1, .jnum 2, .jnum 3])]⟩ ∧
    meshPushState pid e st [("brightness", .jstr "bad")] = .error "ValueError" ∧
    meshPushState pid e st [("current_position", .jstr "bad")] = .error "ValueError" ∧
    smartHandleStateChange t e st
      [("brightness", .jnum 5), ("volume_level", .jstr "x"), ("percentage", .jnum 7)] =
      ([⟨t, .jobj [("entity", .jstr e), ("state", .jstr st)]⟩,
        ⟨t, .jobj [("entity", .jstr e), ("value", .jnum 5)]⟩], some "ValueError") :=
  ⟨rfl, rfl, rfl, rfl⟩

/-- C4, counterexample: submitting the raw text `\x7b"devices": "abc"\x7d`
(decoded value shown) — a `devices` value that is not a list — does NOT make
the editor return a validation error as the claim requires: `_ensure_ids`
raises `AttributeError` BEFORE `_validate_devices` can raise its "devices
must be a list" `ValueError`, the step's `except ValueError` does not catch
it, and the exception escapes the flow step (the committed options are still
untouched). -/
theorem C4_counterexample :
    rawEditorSubmit ⟨.jarr [], "", ""⟩ (.parsed (.jobj [("devices", .jstr "abc")])) 0 =
      .raised "AttributeError" ⟨.jarr [], "", ""⟩ :=
  rfl

/-- C4, amended: a truthy non-list `devices` value raises an uncaught
`AttributeError`/`TypeError` out of the flow step (no validation error shown,
committed options untouched); undecodable text, a root that is not an object
with a `devices` key, a device missing `name`/`icon` and a control missing
`label`/`type`/`entity` redisplay the `invalid` error with the committed
devices unchanged; a device missing `id`/`controls` and a control missing
`id` are auto-repaired by `_ensure_ids` rather than rejected; and a
validating submission replaces the entire devices list and re-derives both
cached raw texts from it. -/
theorem C4_raw_editor_validation :
    (∀ (opts : EditorOptions) (n : Nat),
      rawEditorSubmit opts (.parsed (.jobj [("devices", .jstr "abc")])) n =
        .raised "AttributeError" opts) ∧
    (∀ (opts : EditorOptions) (n : Nat),
      rawEditorSubmit opts (.parsed (.jobj [("devices", .jnum 5)])) n =
        .raised "TypeError" opts) ∧
    (∀ (opts : EditorOptions) (n : Nat),
      rawEditorSubmit opts .undecodable n = .showForm [("base", "invalid")] opts) ∧
    (∀ (opts : EditorOptions) (n : Nat),
      rawEditorSubmit opts (.parsed (.jobj [("layout", .jnum 1)])) n =
        .showForm [("base", "invalid")] opts) ∧
    (∀ (opts : EditorOptions) (n : Nat),
      rawEditorSubmit opts (.parsed (.jarr [.jobj [("devices", .jarr [])]])) n =
        .showForm [("base", "invalid")] opts) ∧
    (∀ (opts : EditorOptions) (n : Nat),
      rawEditorSubmit opts (.parsed (.jobj [("devices", .jarr [.jobj [("name", .jstr "A")]])])) n =
        .showForm [("base", "invalid")] opts) ∧
    (∀ (opts : EditorOptions) (n : Nat),
      rawEditorSubmit opts
        (.parsed (.jobj [("devices", .jarr [.jobj
          [("name", .jstr "A"), ("icon", .jstr "mdi:power"), ("id", .jstr "d1"),
           ("controls", .jarr [.jobj
             [("type", .jstr "switch"), ("entity", .jstr "light.a")]])]])])) n =
        .showForm [("base", "invalid")] opts) ∧
    (∀ (opts : EditorOptions) (n : Nat),
      rawEditorSubmit opts
        (.parsed (.jobj [("devices", .jarr [.jobj
          [("name", .jstr "A"), ("icon", .jstr "mdi:power"),
           ("controls", .jarr [.jobj
             [("id", .jstr "c1"), ("label", .jstr "L"), ("type", .jstr "switch"),
              ("entity", .jstr "light.a")]]),
           ("id", .jstr "d1")]])])) n =
        .createEntry
          ⟨.jarr [.jobj
            [("name", .jstr "A"), ("icon", .jstr "mdi:power"),
             ("controls", .jarr [.jobj
               [("id", .jstr "c1"), ("label", .jstr "L"), ("type", .jstr "switch"),
                ("entity", .jstr "light.a")]]),
             ("id", .jstr "d1")]],
           prettyYaml (.jarr [.jobj
             [("name", .jstr "A"), ("icon", .jstr "mdi:power"),
              ("controls", .jarr [.jobj
                [("id", .jstr "c1"), ("label", .jstr "L"), ("type", .jstr "switch"),
                 ("entity", .jstr "light.a")]]),
              ("id", .jstr "d1")]]),
           prettyJson (.jarr [.jobj
             [("name", .jstr "A"), ("icon", .jstr "mdi:power"),
              ("controls", .jarr [.jobj
                [("id", .jstr "c1"), ("label", .jstr "L"), ("type", .jstr "switch"),
                 ("entity", .jstr "light.a")]]),
              ("id", .jstr "d1")]])⟩) ∧
    (∀ (opts : EditorOptions) (n : Nat),
      rawEditorSubmit opts
        (.parsed (.jobj [("devices", .jarr [.jobj
          [("name", .jstr "A"), ("icon", .jstr "mdi:power")]])])) n =
        .createEntry
          ⟨.jarr [.jobj
            [("name", .jstr "A"), ("icon", .jstr "mdi:power"),
             ("id", .jstr (mkId n)), ("controls", .jarr [])]],
           prettyYaml (.jarr [.jobj
             [("name", .jstr "A"), ("icon", .jstr "mdi:power"),
              ("id", .jstr (mkId n)), ("controls", .jarr [])]]),
           prettyJson (.jarr [.jobj
             [("name", .jstr "A"), ("icon", .jstr "mdi:power"),
              ("id", .jstr (mkId n)), ("controls", .jarr [])]])⟩) ∧
    (∀ (opts : EditorOptions) (n : Nat),
      rawEditorSubmit opts
        (.parsed (.jobj [("devices", .jarr [.jobj
          [("name", .jstr "A"), ("icon", .jstr "mdi:power"), ("id", .jstr "d1"),
           ("controls", .jarr [.jobj
             [("label", .jstr "L"), ("type", .jstr "switch"),
              ("entity", .jstr "light.a")]])]])])) n =
        .createEntry
          ⟨.jarr [.jobj
            [("name", .jstr "A"), ("icon", .jstr "mdi:power"), ("id", .jstr "d1"),
             ("controls", .jarr [.jobj
               [("label", .jstr "L"), ("type", .jstr "switch"),
                ("entity", .jstr "light.a"), ("id", .jstr (mkId n))]])]],
           prettyYaml (.jarr [.jobj
             [("name", .jstr "A"), ("icon", .jstr "mdi:power"), ("id", .jstr "d1"),
              ("controls", .jarr [.jobj
                [("label", .jstr "L"), ("type", .jstr "switch"),
                 ("entity", .jstr "light.a"), ("id", .jstr (mkId n))]])]]),
           prettyJson (.jarr [.jobj
             [("name", .jstr "A"), ("icon", .jstr "mdi:power"), ("id", .jstr "d1"),
              ("controls", .jarr [.jobj
                [("label", .jstr "L"), ("type", .jstr "switch"),
                 ("entity", .jstr "light.a"), ("id", .jstr (mkId n))]])]])⟩) :=
  ⟨fun _ _ => rfl, fun _ _ => rfl, fun _ _ => rfl, fun _ _ => rfl, fun _ _ => rfl,
   fun _ _ => rfl, fun _ _ => rfl, fun _ _ => rfl, fun _ _ => rfl, fun _ _ => rfl⟩

/-- C9: saving a select control normalizes a comma-separated options string
to the newline-joined stored form (pieces stripped, empty pieces dropped,
order preserved), and leaves an already newline-separated (or comma-free)
string unchanged. -/
theorem C9_select_options_normalization :
    saveControlNormalize [("type", .jstr "select"), ("options", .jstr "A, B, C")] =
      [("type", .jstr "select"), ("options", .jstr "A\nB\nC")] ∧
    saveControlNormalize [("type", .jstr "select"), ("options", .jstr " A ,, C ")] =
      [("type", .jstr "select"), ("options", .jstr "A\nC")] ∧
    (∀ s : String, s.data.contains '\n' = true → normalizeSelectOptions s = s) ∧
    (∀ s : String, s.data.contains ',' = false → normalizeSelectOptions s = s) := by
  refine ⟨rfl, rfl, ?_, ?_⟩
  · intro s h
    simp only [normalizeSelectOptions]
    rw [if_neg]
    simp only [Bool.and_eq_true, Bool.not_eq_true', not_and]
    intro _
    simpa using h
  · intro s h
    simp only [normalizeSelectOptions]
    rw [if_neg]
    simp only [Bool.and_eq_true, Bool.not_eq_true', not_and]
    intro hc
    exact absurd (by simpa using hc) (by simpa using h)

/-- Witness for `C9_select_options_normalization`: an already
newline-separated string and a single-option string are stored unchanged. -/
theorem C9_select_options_normalization_witness :
    normalizeSelectOptions "A\nB\nC" = "A\nB\nC" ∧ normalizeSelectOptions "ABC" = "ABC" :=
  ⟨C9_select_options_normalization.2.2.1 "A\nB\nC" rfl,
   C9_select_options_normalization.2.2.2 "ABC" rfl⟩

/-- C10: `_coerce_layout` is total and always yields a dict — blank input is
replaced by the parsed `DEFAULT_LAYOUT`, a text decoding to a dict (by JSON,
or by YAML after JSON fails) is returned as-is, and any text that decodes to
no dict under either parser degrades to `\x7b"devices": []\x7d`. -/
theorem C10_coerce_layout_total :
    (∀ t : LayoutText, isObjVal (coerceLayout t) = true) ∧
    (∀ t : LayoutText, t.blank = true → coerceLayout t = defaultLayoutVal) ∧
    (∀ (t : LayoutText) (d : JVal), t.blank = false → t.jsonRes = some d →
      isObjVal d = true → coerceLayout t = d) ∧
    (∀ t : LayoutText, t.blank = false →
      (∀ d, t.jsonRes = some d → isObjVal d = false) →
      (∀ d, t.yamlRes = some d → isObjVal d = false) →
      coerceLayout t = .jobj [("devices", .jarr [])]) := by
  refine ⟨?_, ?_, ?_, ?_⟩
  · rintro ⟨bl, j, y⟩
    cases bl with
    | true => rfl
    | false =>
      cases j with
      | none =>
        cases y with
        | none => rfl
        | some d => cases d <;> rfl
      | some d =>
        cases d <;> first
          | rfl
          | (cases y with
             | none => rfl
             | some d2 => cases d2 <;> rfl)
  · rintro ⟨bl, j, y⟩ h
    cases h
    rfl
  · rintro ⟨bl, j, y⟩ d hbl hj hd
    cases hbl
    cases hj
    simp [coerceLayout, hd]
  · rintro ⟨bl, j, y⟩ hbl hjson hyaml
    cases hbl
    cases j with
    | none =>
      cases y with
      | none => rfl
      | some d =>
        have hd := hyaml d rfl
        simp [coerceLayout, coerceLayoutYaml, hd]
    | some d =>
      have hd := hjson d rfl
      cases y with
      | none => simp [coerceLayout, coerceLayoutYaml, hd]
      | some d2 =>
        have hd2 := hyaml d2 rfl
        simp [coerceLayout, coerceLayoutYaml, hd, hd2]

/-- Witness for `C10_coerce_layout_total`: blank input yields the default
layout; a JSON dict is returned as-is; a text decoding to a list under both
parsers degrades to the empty-devices dict. -/
theorem C10_coerce_layout_total_witness :
    coerceLayout ⟨true, none, none⟩ = defaultLayoutVal ∧
    coerceLayout ⟨false, some (.jobj [("devices", .jarr [])]), none⟩ =
      .jobj [("devices", .jarr [])] ∧
    coerceLayout ⟨false, some (.jarr [.jnum 1]), some (.jarr [.jnum 1])⟩ =
      .jobj [("devices", .jarr [])] :=
  ⟨C10_coerce_layout_total.2.1 ⟨true, none, none⟩ rfl,
   C10_coerce_layout_total.2.2.1 ⟨false, some (.jobj [("devices", .jarr [])]), none⟩
     (.jobj [("devices", .jarr [])]) rfl rfl rfl,
   C10_coerce_layout_total.2.2.2 ⟨false, some (.jarr [.jnum 1]), some (.jarr [.jnum 1])⟩
     rfl (fun d hd => by injection hd with h; rw [← h]; rfl)
     (fun d hd => by injection hd with h; rw [← h]; rfl)⟩

/-- If a watched entity has a known state whose push succeeds, its message is
among those produced by the initial-push loop. -/
theorem pushAll_mem (pid : String) (states : String → Option (String × Fields))
    (ent st : String) (attrs : Fields) (m : Pub)
    (hs : states ent = some (st, attrs))
    (hm : meshPushState pid ent st attrs = .ok m) :
    ∀ (l : List String) (ps : List Pub), pushAll pid states l = .ok ps → ent ∈ l → m ∈ ps := by
  intro l
  induction l with
  | nil =>
    intro ps _ hmem
    cases hmem
  | cons e rest ih =>
    intro ps hp hmem
    simp only [pushAll] at hp
    rcases List.mem_cons.mp hmem with rfl | hmem'
    · simp only [hs, hm] at hp
      cases hrest : pushAll pid states rest with
      | error err =>
        simp only [hrest] at hp
        simp at hp
      | ok ms =>
        simp only [hrest] at hp
        injection hp with h
        rw [← h]
        exact List.mem_cons_self m ms
    · cases hse : states e with
      | none =>
        simp only [hse] at hp
        exact ih ps hp hmem'
      | some p =>
        obtain ⟨st', attrs'⟩ := p
        simp only [hse] at hp
        cases hpush : meshPushState pid e st' attrs' with
        | error err =>
          simp only [hpush] at hp
          simp at hp
        | ok m' =>
          simp only [hpush] at hp
          cases hrest : pushAll pid states rest with
          | error err =>
            simp only [hrest] at hp
            simp at hp
          | ok ms =>
            simp only [hrest] at hp
            injection hp with h
            rw [← h]
            exact List.mem_cons_of_mem m' (ih ms hrest hmem')

/-- C7, amended: on setup the mesh_panel bridge publishes the retained UI
snapshot and then one synthesized state message for every watched entity the
backend currently knows (in particular, any watched known entity's push
message is among the published messages); the smart_panel bridge instead
publishes ONLY the UI snapshot on start and synthesizes no initial state
messages. -/
theorem C7_amended_initial_snapshots (pid : String) (cfg : JVal)
    (states : String → Option (String × Fields)) (watch : List String) (pushes : List Pub)
    (ent st : String) (attrs : Fields) (m : Pub)
    (hw : meshWatchList cfg = .ok watch)
    (hp : pushAll pid states watch = .ok pushes)
    (hmem : ent ∈ watch)
    (hs : states ent = some (st, attrs))
    (hm : meshPushState pid ent st attrs = .ok m) :
    meshAsyncSetup pid cfg states = .ok (⟨uiTopic pid, cfg⟩ :: pushes) ∧
    m ∈ pushes ∧
    (∀ (tb : String) (dc : JVal) (w : List String), isFalsy dc = false →
      smartCollectWatch dc = .ok w →
      smartStart tb dc = ([⟨tb ++ "/ui", .jobj [("devices", dc)]⟩], none)) := by
  refine ⟨?_, ?_, ?_⟩
  · simp [meshAsyncSetup, hw, hp]
  · exact pushAll_mem pid states ent st attrs m hs hm watch pushes hp hmem
  · intro tb dc w hfalsy hcol
    simp [smartStart, hfalsy, hcol]

/-- Witness for `C7_amended_initial_snapshots` at a one-device layout whose
`state_entity` is known to the backend. -/
theorem C7_amended_initial_snapshots_witness :
    meshAsyncSetup "p" (.jobj [("devices", .jarr [.jobj [("state_entity", .jstr "sensor.t")]])])
      (fun e => if e == "sensor.t" then some ("21", ([] : Fields)) else none) =
      .ok [⟨uiTopic "p", .jobj [("devices", .jarr [.jobj [("state_entity", .jstr "sensor.t")]])]⟩,
           ⟨stateTopic "p", .jobj [("entity", .jstr "sensor.t"), ("state", .jstr "21")]⟩] ∧
    (⟨stateTopic "p", .jobj [("entity", .jstr "sensor.t"), ("state", .jstr "21")]⟩ : Pub) ∈
      [(⟨stateTopic "p", .jobj [("entity", .jstr "sensor.t"), ("state", .jstr "21")]⟩ : Pub)] ∧
    smartStart "smartpanel/p1" (.jarr [.jobj [("state_entity", .jstr "sensor.t")]]) =
      ([⟨"smartpanel/p1/ui",
         .jobj [("devices", .jarr [.jobj [("state_entity", .jstr "sensor.t")]])]⟩], none) := by
  have h := C7_amended_initial_snapshots "p"
    (.jobj [("devices", .jarr [.jobj [("state_entity", .jstr "sensor.t")]])])
    (fun e => if e == "sensor.t" then some ("21", ([] : Fields)) else none)
    ["sensor.t"]
    [⟨stateTopic "p", .jobj [("entity", .jstr "sensor.t"), ("state", .jstr "21")]⟩]
    "sensor.t" "21" []
    ⟨stateTopic "p", .jobj [("entity", .jstr "sensor.t"), ("state", .jstr "21")]⟩
    rfl rfl (List.mem_cons_self _ _) rfl rfl
  exact ⟨h.1, h.2.1, h.2.2 "smartpanel/p1" (.jarr [.jobj [("state_entity", .jstr "sensor.t")]])
    ["sensor.t"] rfl rfl⟩

/-- C7, counterexample: a smart_panel layout watching `light.a` produces, at
startup, only the UI message on `smartpanel/p1/ui` — no message is ever
published on the state topic `smartpanel/p1/state`, whatever state the
backend knows for `light.a` (the start routine never reads backend state), so
the panel gets no initial snapshot. -/
theorem C7_counterexample :
    smartCollectWatch (.jarr [.jobj [("name", .jstr "D"),
        ("controls", .jarr [.jobj [("entity", .jstr "light.a")]])]]) = .ok ["light.a"] ∧
    smartStart "smartpanel/p1" (.jarr [.jobj [("name", .jstr "D"),
        ("controls", .jarr [.jobj [("entity", .jstr "light.a")]])]]) =
      ([⟨"smartpanel/p1/ui",
         .jobj [("devices", .jarr [.jobj [("name", .jstr "D"),
           ("controls", .jarr [.jobj [("entity", .jstr "light.a")]])]])]⟩], none) ∧
    ((smartStart "smartpanel/p1" (.jarr [.jobj [("name", .jstr "D"),
        ("controls", .jarr [.jobj [("entity", .jstr "light.a")]])]])).1.map Pub.topic) =
      ["smartpanel/p1/ui"] :=
  ⟨rfl, rfl, rfl⟩

/-! ## Association-list lemmas (for the `_ensure_ids` development) -/

theorem hasKey_lookup (fs : Fields) (k : String) :
    hasKey fs k = (lookupKey fs k).isSome := by
  induction fs with
  | nil => rfl
  | cons p rest ih =>
    obtain ⟨k', v⟩ := p
    by_cases h : (k' == k) = true
    · simp [hasKey, lookupKey, h]
    · simp only [Bool.not_eq_true] at h
      simp only [hasKey, List.any_cons] at ih ⊢
      simp [lookupKey, h, ih]

theorem lookupKey_append_some (fs l : Fields) (k : String) (v : JVal)
    (h : lookupKey fs k = some v) : lookupKey (fs ++ l) k = some v := by
  induction fs with
  | nil => cases h
  | cons p rest ih =>
    obtain ⟨k', v'⟩ := p
    simp only [List.cons_append, lookupKey] at h ⊢
    by_cases hk : (k' == k) = true
    · rw [if_pos hk] at h ⊢
      exact h
    · rw [if_neg hk] at h ⊢
      exact ih h

theorem lookupKey_append_none (fs l : Fields) (k : String)
    (h : lookupKey fs k = none) : lookupKey (fs ++ l) k = lookupKey l k := by
  induction fs with
  | nil => rfl
  | cons p rest ih =>
    obtain ⟨k', v'⟩ := p
    simp only [List.cons_append, lookupKey] at h ⊢
    by_cases hk : (k' == k) = true
    · rw [if_pos hk] at h
      cases h
    · rw [if_neg hk] at h ⊢
      exact ih h

theorem hasKey_append_left (fs l : Fields) (k : String) (h : hasKey fs k = true) :
    hasKey (fs ++ l) k = true := by
  rw [hasKey_lookup] at h ⊢
  cases hl : lookupKey fs k with
  | none => rw [hl] at h; cases h
  | some v => rw [lookupKey_append_some fs l k v hl]; rfl

theorem hasKey_append_self (fs : Fields) (k : String) (v : JVal) :
    hasKey (fs ++ [(k, v)]) k = true := by
  rw [hasKey_lookup]
  cases hl : lookupKey fs k with
  | some w => rw [lookupKey_append_some fs [(k, v)] k w hl]; rfl
  | none => rw [lookupKey_append_none fs [(k, v)] k hl]; simp [lookupKey]

theorem lookupKey_setKey_self (fs : Fields) (k : String) (v : JVal) :
    lookupKey (setKey fs k v) k = some v := by
  induction fs with
  | nil => simp [setKey, lookupKey]
  | cons p rest ih =>
    obtain ⟨k', v'⟩ := p
    by_cases hk : (k' == k) = true
    · simp [setKey, hk, lookupKey]
    · simp [setKey, hk, lookupKey, ih]

theorem lookupKey_setKey_ne (fs : Fields) (k : String) (v : JVal) (k' : String)
    (h : k ≠ k') : lookupKey (setKey fs k v) k' = lookupKey fs k' := by
  induction fs with
  | nil => simp [setKey, lookupKey, beq_eq_false_iff_ne.mpr h]
  | cons p rest ih =>
    obtain ⟨k₀, v₀⟩ := p
    by_cases hk : (k₀ == k) = true
    · have hkk : k₀ = k := eq_of_beq hk
      subst hkk
      simp [setKey, hk, lookupKey, beq_eq_false_iff_ne.mpr h]
    · simp [setKey, hk, lookupKey, ih]

theorem setKey_eq_self (fs : Fields) (k : String) (v : JVal)
    (h : lookupKey fs k = some v) : setKey fs k v = fs := by
  induction fs with
  | nil => cases h
  | cons p rest ih =>
    obtain ⟨k₀, v₀⟩ := p
    by_cases hk : (k₀ == k) = true
    · simp only [lookupKey, if_pos hk] at h
      injection h with h
      simp [setKey, hk, h]
    · simp only [lookupKey, if_neg hk] at h
      simp [setKey, hk, ih h]

/-! ## `_ensure_ids` lemmas -/

theorem ensureIdField_hasKey (fs : Fields) (n : Nat) :
    hasKey (ensureIdField fs n).1 CONF_ID = true := by
  by_cases h : hasKey fs CONF_ID = true
  · simp [ensureIdField, h]
  · simp only [Bool.not_eq_true] at h
    simp [ensureIdField, h, hasKey_append_self]

theorem ensureIdField_noop (fs : Fields) (n : Nat) (h : hasKey fs CONF_ID = true) :
    ensureIdField fs n = (fs, n) := by
  simp [ensureIdField, h]

theorem ensureIdField_preserves (fs : Fields) (n : Nat) (k : String) (v : JVal)
    (h : lookupKey fs k = some v) : lookupKey (ensureIdField fs n).1 k = some v := by
  by_cases hid : hasKey fs CONF_ID = true
  · simp [ensureIdField, hid, h]
  · simp only [Bool.not_eq_true] at hid
    simp [ensureIdField, hid, lookupKey_append_some _ _ _ _ h]

theorem ensureControlsField_hasKey (fs : Fields) :
    hasKey (ensureControlsField fs) CONF_CONTROLS = true := by
  by_cases h : hasKey fs CONF_CONTROLS = true
  · simp [ensureControlsField, h]
  · simp only [Bool.not_eq_true] at h
    simp [ensureControlsField, h, hasKey_append_self]

theorem ensureControlsField_noop (fs : Fields) (h : hasKey fs CONF_CONTROLS = true) :
    ensureControlsField fs = fs := by
  simp [ensureControlsField, h]

theorem ensureControlsField_preserves (fs : Fields) (k : String) (v : JVal)
    (h : lookupKey fs k = some v) : lookupKey (ensureControlsField fs) k = some v := by
  by_cases hc : hasKey fs CONF_CONTROLS = true
  · simp [ensureControlsField, hc, h]
  · simp only [Bool.not_eq_true] at hc
    simp [ensureControlsField, hc, lookupKey_append_some _ _ _ _ h]

theorem ensureControlsField_hasKey_left (fs : Fields) (k : String)
    (h : hasKey fs k = true) : hasKey (ensureControlsField fs) k = true := by
  by_cases hc : hasKey fs CONF_CONTROLS = true
  · simp [ensureControlsField, hc, h]
  · simp only [Bool.not_eq_true] at hc
    simp [ensureControlsField, hc, hasKey_append_left _ _ _ h]

theorem ensureControl_ok_full (c : JVal) (n : Nat) (c' : JVal) (n' : Nat)
    (h : ensureControl c n = .ok (c', n')) : controlFull c' = true := by
  cases c with
  | jobj fs =>
    by_cases hid : hasKey fs CONF_ID = true
    · simp only [ensureControl, if_pos hid, Except.ok.injEq, Prod.mk.injEq] at h
      obtain ⟨h1, _⟩ := h
      subst h1
      simpa [controlFull] using hid
    · simp only [Bool.not_eq_true] at hid
      simp only [ensureControl, hid, Bool.false_eq_true, if_false, Except.ok.injEq,
        Prod.mk.injEq] at h
      obtain ⟨h1, _⟩ := h
      subst h1
      simpa [controlFull] using hasKey_append_self fs CONF_ID (.jstr (mkId n))
  | jnull => simp [ensureControl] at h
  | jbool b => simp [ensureControl] at h
  | jnum q => simp [ensureControl] at h
  | jstr s => simp [ensureControl] at h
  | jarr xs => simp [ensureControl] at h

theorem ensureControl_noop (c : JVal) (n : Nat) (h : controlFull c = true) :
    ensureControl c n = .ok (c, n) := by
  cases c with
  | jobj fs =>
    simp only [controlFull] at h
    simp [ensureControl, h]
  | jnull => simp [controlFull] at h
  | jbool b => simp [controlFull] at h
  | jnum q => simp [controlFull] at h
  | jstr s => simp [controlFull] at h
  | jarr xs => simp [controlFull] at h

theorem ensureControlList_ok_full :
    ∀ (cs : List JVal) (n : Nat) (cs' : List JVal) (n' : Nat),
      ensureControlList cs n = .ok (cs', n') → cs'.all controlFull = true := by
  intro cs
  induction cs with
  | nil =>
    intro n cs' n' h
    simp only [ensureControlList, Except.ok.injEq, Prod.mk.injEq] at h
    obtain ⟨h1, _⟩ := h
    rw [← h1]
    rfl
  | cons c rest ih =>
    intro n cs' n' h
    simp only [ensureControlList] at h
    cases hc : ensureControl c n with
    | error e => simp [hc] at h
    | ok p =>
      obtain ⟨c', n₁⟩ := p
      simp only [hc] at h
      cases hr : ensureControlList rest n₁ with
      | error e => simp [hr] at h
      | ok q =>
        obtain ⟨rest', n₂⟩ := q
        simp only [hr, Except.ok.injEq, Prod.mk.injEq] at h
        obtain ⟨h1, _⟩ := h
        rw [← h1]
        simp [List.all_cons, ensureControl_ok_full c n c' n₁ hc, ih n₁ rest' n₂ hr]

theorem ensureControlList_noop :
    ∀ (cs : List JVal) (n : Nat), cs.all controlFull = true →
      ensureControlList cs n = .ok (cs, n) := by
  intro cs
  induction cs with
  | nil => intro n _; rfl
  | cons c rest ih =>
    intro n h
    simp only [List.all_cons, Bool.and_eq_true] at h
    simp [ensureControlList, ensureControl_noop c n h.1, ih n h.2]

theorem ensureControlsVal_ok_full (v : JVal) (n : Nat) (v' : JVal) (n' : Nat)
    (h : ensureControlsVal v n = .ok (v', n')) : controlsValFull v' = true := by
  cases v with
  | jarr cs =>
    simp only [ensureControlsVal] at h
    cases hl : ensureControlList cs n with
    | error e => simp [hl] at h
    | ok p =>
      obtain ⟨cs', n₂⟩ := p
      simp only [hl, Except.ok.injEq, Prod.mk.injEq] at h
      obtain ⟨h1, _⟩ := h
      subst h1
      simpa [controlsValFull] using ensureControlList_ok_full cs n cs' n₂ hl
  | jstr s =>
    by_cases hs : (s == "") = true
    · simp only [ensureControlsVal, if_pos hs, Except.ok.injEq, Prod.mk.injEq] at h
      obtain ⟨h1, _⟩ := h
      subst h1
      simpa [controlsValFull] using hs
    · simp [ensureControlsVal, hs] at h
  | jobj fs =>
    by_cases hs : fs.isEmpty = true
    · simp only [ensureControlsVal, if_pos hs, Except.ok.injEq, Prod.mk.injEq] at h
      obtain ⟨h1, _⟩ := h
      subst h1
      simpa [controlsValFull] using hs
    · simp [ensureControlsVal, hs] at h
  | jnull => simp [ensureControlsVal] at h
  | jbool b => simp [ensureControlsVal] at h
  | jnum q => simp [ensureControlsVal] at h

theorem ensureControlsVal_noop (v : JVal) (n : Nat) (h : controlsValFull v = true) :
    ensureControlsVal v n = .ok (v, n) := by
  cases v with
  | jarr cs =>
    simp only [controlsValFull] at h
    simp [ensureControlsVal, ensureControlList_noop cs n h]
  | jstr s =>
    simp only [controlsValFull] at h
    simp [ensureControlsVal, h]
  | jobj fs =>
    simp only [controlsValFull] at h
    simp [ensureControlsVal, h]
  | jnull => simp [controlsValFull] at h
  | jbool b => simp [controlsValFull] at h
  | jnum q => simp [controlsValFull] at h

theorem deviceFull_setKey (fs : Fields) (cv : JVal)
    (hid : hasKey fs CONF_ID = true) (hcv : controlsValFull cv = true) :
    deviceFull (.jobj (setKey fs CONF_CONTROLS cv)) = true := by
  have h1 : hasKey (setKey fs CONF_CONTROLS cv) CONF_ID = true := by
    rw [hasKey_lookup, lookupKey_setKey_ne _ _ _ _ (by decide : CONF_CONTROLS ≠ CONF_ID),
      ← hasKey_lookup]
    exact hid
  have h2 := lookupKey_setKey_self fs CONF_CONTROLS cv
  simp [deviceFull, h1, h2, hcv]

theorem ensureDevice_ok_full (d : JVal) (n : Nat) (d' : JVal) (n' : Nat)
    (h : ensureDevice d n = .ok (d', n')) : deviceFull d' = true := by
  cases d with
  | jobj fs =>
    simp only [ensureDevice] at h
    cases hec : ensureControlsVal
        ((lookupKey (ensureControlsField (ensureIdField fs n).1) CONF_CONTROLS).getD .jnull)
        (ensureIdField fs n).2 with
    | error e => simp [hec] at h
    | ok p =>
      obtain ⟨cv', n₂⟩ := p
      simp only [hec, Except.ok.injEq, Prod.mk.injEq] at h
      obtain ⟨h1, _⟩ := h
      subst h1
      exact deviceFull_setKey _ _
        (ensureControlsField_hasKey_left _ _ (ensureIdField_hasKey fs n))
        (ensureControlsVal_ok_full _ _ _ _ hec)
  | jnull => simp [ensureDevice] at h
  | jbool b => simp [ensureDevice] at h
  | jnum q => simp [ensureDevice] at h
  | jstr s => simp [ensureDevice] at h
  | jarr xs => simp [ensureDevice] at h

theorem ensureDevice_noop (d : JVal) (n : Nat) (h : deviceFull d = true) :
    ensureDevice d n = .ok (d, n) := by
  cases d with
  | jobj fs =>
    simp only [deviceFull, Bool.and_eq_true] at h
    obtain ⟨hid, hm⟩ := h
    cases hcv : lookupKey fs CONF_CONTROLS with
    | none => rw [hcv] at hm; simp at hm
    | some cv =>
      rw [hcv] at hm
      have hck : hasKey fs CONF_CONTROLS = true := by rw [hasKey_lookup, hcv]; rfl
      simp only [ensureDevice, ensureIdField_noop fs n hid, ensureControlsField_noop fs hck,
        hcv, Option.getD_some, ensureControlsVal_noop cv n hm,
        setKey_eq_self fs CONF_CONTROLS cv hcv]
  | jnull => simp [deviceFull] at h
  | jbool b => simp [deviceFull] at h
  | jnum q => simp [deviceFull] at h
  | jstr s => simp [deviceFull] at h
  | jarr xs => simp [deviceFull] at h

theorem ensureDevice_preserves_id (d : JVal) (n : Nat) (d' : JVal) (n' : Nat)
    (h : ensureDevice d n = .ok (d', n')) :
    ∀ v, devId d = some v → devId d' = some v := by
  intro v hv
  cases d with
  | jobj fs =>
    simp only [devId] at hv
    have hid : hasKey fs CONF_ID = true := by rw [hasKey_lookup, hv]; rfl
    simp only [ensureDevice, ensureIdField_noop fs n hid] at h
    cases hec : ensureControlsVal
        ((lookupKey (ensureControlsField fs) CONF_CONTROLS).getD .jnull) n with
    | error e => simp [hec] at h
    | ok p =>
      obtain ⟨cv', n₂⟩ := p
      simp only [hec, Except.ok.injEq, Prod.mk.injEq] at h
      obtain ⟨h1, _⟩ := h
      subst h1
      simp only [devId]
      rw [lookupKey_setKey_ne _ _ _ _ (by decide : CONF_CONTROLS ≠ CONF_ID)]
      exact ensureControlsField_preserves fs CONF_ID v hv
  | jnull => cases hv
  | jbool b => cases hv
  | jnum q => cases hv
  | jstr s => cases hv
  | jarr xs => cases hv

theorem ensureDevices_ok_full :
    ∀ (ds : List JVal) (n : Nat) (ds' : List JVal) (n' : Nat),
      ensureDevices ds n = .ok (ds', n') → devicesFull ds' = true := by
  intro ds
  induction ds with
  | nil =>
    intro n ds' n' h
    simp only [ensureDevices, Except.ok.injEq, Prod.mk.injEq] at h
    obtain ⟨h1, _⟩ := h
    rw [← h1]
    rfl
  | cons d rest ih =>
    intro n ds' n' h
    simp only [ensureDevices] at h
    cases hd : ensureDevice d n with
    | error e => simp [hd] at h
    | ok p =>
      obtain ⟨d', n₁⟩ := p
      simp only [hd] at h
      cases hr : ensureDevices rest n₁ with
      | error e => simp [hr] at h
      | ok q =>
        obtain ⟨rest', n₂⟩ := q
        simp only [hr, Except.ok.injEq, Prod.mk.injEq] at h
        obtain ⟨h1, _⟩ := h
        rw [← h1]
        simp [devicesFull, List.all_cons, ensureDevice_ok_full d n d' n₁ hd]
        have := ih n₁ rest' n₂ hr
        simpa [devicesFull] using this

theorem ensureDevices_noop :
    ∀ (ds : List JVal) (n : Nat), devicesFull ds = true → ensureDevices ds n = .ok (ds, n) := by
  intro ds
  induction ds with
  | nil => intro n _; rfl
  | cons d rest ih =>
    intro n h
    simp only [devicesFull, List.all_cons, Bool.and_eq_true] at h
    simp [ensureDevices, ensureDevice_noop d n h.1]
    have := ih n (by simpa [devicesFull] using h.2)
    simp [this]

theorem ensureDevices_preserves_ids :
    ∀ (ds : List JVal) (n : Nat) (ds' : List JVal) (n' : Nat),
      ensureDevices ds n = .ok (ds', n') →
      List.Forall₂ (fun d d' => ∀ v, devId d = some v → devId d' = some v) ds ds' := by
  intro ds
  induction ds with
  | nil =>
    intro n ds' n' h
    simp only [ensureDevices, Except.ok.injEq, Prod.mk.injEq] at h
    obtain ⟨h1, _⟩ := h
    rw [← h1]
    exact List.Forall₂.nil
  | cons d rest ih =>
    intro n ds' n' h
    simp only [ensureDevices] at h
    cases hd : ensureDevice d n with
    | error e => simp [hd] at h
    | ok p =>
      obtain ⟨d', n₁⟩ := p
      simp only [hd] at h
      cases hr : ensureDevices rest n₁ with
      | error e => simp [hr] at h
      | ok q =>
        obtain ⟨rest', n₂⟩ := q
        simp only [hr, Except.ok.injEq, Prod.mk.injEq] at h
        obtain ⟨h1, _⟩ := h
        rw [← h1]
        exact List.Forall₂.cons (ensureDevice_preserves_id d n d' n₁ hd) (ih n₁ rest' n₂ hr)

/-- C8: `_ensure_ids` is idempotent.  One successful application yields a
fully-id'd list; re-running it (with ANY fresh-id supply) returns exactly the
same list and consumes no ids; running it on an already fully-id'd list
changes nothing; and existing device ids are never regenerated (each output
device keeps its input id whenever one was present). -/
theorem C8_ensure_ids_idempotent (ds : List JVal) (n : Nat) (ds' : List JVal) (n' : Nat)
    (h : ensureDevices ds n = .ok (ds', n')) :
    (∀ m, ensureDevices ds' m = .ok (ds', m)) ∧
    (devicesFull ds = true → ds' = ds ∧ n' = n) ∧
    List.Forall₂ (fun d d' => ∀ v, devId d = some v → devId d' = some v) ds ds' := by
  refine ⟨?_, ?_, ?_⟩
  · intro m
    exact ensureDevices_noop ds' m (ensureDevices_ok_full ds n ds' n' h)
  · intro hfull
    have hq := ensureDevices_noop ds n hfull
    rw [hq] at h
    injection h with h
    injection h with h1 h2
    exact ⟨h1.symm, h2.symm⟩
  · exact ensureDevices_preserves_ids ds n ds' n' h

/-- Witness for `C8_ensure_ids_idempotent`: a device lacking id and controls
gets both assigned once; re-running on the result (with a different supply)
returns it unchanged, and its id is preserved. -/
theorem C8_ensure_ids_idempotent_witness :
    ensureDevices [.jobj [("name", .jstr "A"), ("id", .jstr "uuid-0"), ("controls", .jarr [])]]
        5 =
      .ok ([.jobj [("name", .jstr "A"), ("id", .jstr "uuid-0"), ("controls", .jarr [])]], 5) ∧
    (([.jobj [("name", .jstr "A"), ("id", .jstr "uuid-0"), ("controls", .jarr [])]] :
          List JVal) =
        [.jobj [("name", .jstr "A"), ("id", .jstr "uuid-0"), ("controls", .jarr [])]] ∧
      (1 : Nat) = 1) := by
  have h := C8_ensure_ids_idempotent [.jobj [("name", .jstr "A")]] 0
    [.jobj [("name", .jstr "A"), ("id", .jstr "uuid-0"), ("controls", .jarr [])]] 1 rfl
  have h2 := C8_ensure_ids_idempotent
    [.jobj [("name", .jstr "A"), ("id", .jstr "uuid-0"), ("controls", .jarr [])]] 1
    [.jobj [("name", .jstr "A"), ("id", .jstr "uuid-0"), ("controls", .jarr [])]] 1
    (h.1 1)
  exact ⟨h.1 5, h2.2.1 rfl⟩
